import Mathlib

/-
Verification development for the CareLink AI repository.

The repository ships a browser frontend (frontend/script.js, embedded below
from the source) and a Python backend (backend/app.py, simulator.py,
predict.py) that is not present under src/; the backend components — the
vitals generator, the rule-based risk classifier, the forecast engine and
the bounded history buffer — are therefore modelled from the specification,
as marked on each definition.
-/

namespace CareLink

/-- A vitals triple (heart rate in bpm, temperature in Celsius, SpO2 in %).
Real-valued vitals are embedded as rationals. -/
structure Vitals where
  heart_rate : ℚ
  temperature : ℚ
  spo2 : ℚ
  deriving DecidableEq

/-- A per-tick snapshot: timestamp, the vitals, and the risk label assigned
at creation time. -/
structure Snapshot where
  timestamp : Nat
  vitals : Vitals
  risk : Nat
  deriving DecidableEq

/-- Modelled from the spec: the rule-based fallback classifier (backend
predict.py is not under src/). Applies the fixed clinical thresholds:
risk = 1 if heart_rate > 100 or heart_rate < 50 or spo2 < 92 or
temperature > 38, else 0. -/
def classifyRule (v : Vitals) : Nat :=
  if v.heart_rate > 100 ∨ v.heart_rate < 50 ∨ v.spo2 < 92 ∨ v.temperature > 38 then 1 else 0

/-- Modelled from the spec: classifier selection happens once at startup;
with no trained-model artifact available the rule-based fallback is the
selected implementation of the `classify` contract. -/
def classify : Vitals → Nat := classifyRule

/-- C1: the rule-based fallback classifier returns risk = 1 iff
heart_rate > 100 or heart_rate < 50 or spo2 < 92 or temperature > 38;
in particular it returns 1 on the snapshot with heart_rate 130,
temperature 36.8, spo2 97, and 0 on heart_rate 75, temperature 36.9,
spo2 98. -/
theorem c1_rule_fallback_thresholds :
    (∀ v : Vitals, classify v = 1 ↔
      (v.heart_rate > 100 ∨ v.heart_rate < 50 ∨ v.spo2 < 92 ∨ v.temperature > 38)) ∧
    classify ⟨130, 36.8, 97⟩ = 1 ∧ classify ⟨75, 36.9, 98⟩ = 0 := by
  refine ⟨?_, ?_, ?_⟩
  · intro v
    unfold classify classifyRule
    split
    · simp_all
    · simp_all
  · norm_num [classify, classifyRule]
  · norm_num [classify, classifyRule]

/-- C3: `classify` is deterministic and depends only on the snapshot's three
vitals: any two inputs with equal heart_rate, temperature and spo2 receive
equal risk labels, independent of any other state. -/
theorem c3_classify_deterministic (v w : Vitals)
    (h1 : v.heart_rate = w.heart_rate) (h2 : v.temperature = w.temperature)
    (h3 : v.spo2 = w.spo2) : classify v = classify w := by
  cases v
  cases w
  cases h1
  cases h2
  cases h3
  rfl

/-- Witness for C3 at a concrete pair of equal-vitals inputs. -/
theorem c3_classify_deterministic_witness :
    classify ⟨80, 37, 97⟩ = classify ⟨80, 37, 96 + 1⟩ :=
  c3_classify_deterministic ⟨80, 37, 97⟩ ⟨80, 37, 96 + 1⟩ rfl rfl (by norm_num)

/-- Modelled from the spec: the operator-settable trend override enum. -/
inductive Trend
  | normal
  | improving
  | worsening
  | critical
  deriving DecidableEq

/-- Modelled from the spec: one draw of the injected seeded random source
for a generator step — per-vital perturbations, a spike flag and the
spike deviations. -/
structure RandSample where
  dHr : ℚ
  dTemp : ℚ
  dSpo2 : ℚ
  spike : Bool
  spikeHr : ℚ
  spikeSpo2 : ℚ
  deriving DecidableEq

/-- Modelled from the spec: lower clamp bound for SpO2 (SpO2 ∈ [70,100]). -/
def spo2Lo : ℚ := 70

/-- Modelled from the spec: upper clamp bound for SpO2. -/
def spo2Hi : ℚ := 100

/-- Modelled from the spec: physiological clamp bounds for heart rate
(a representative valid range; the spec fixes only the SpO2 bounds). -/
def hrLo : ℚ := 20

/-- Upper heart-rate clamp bound. -/
def hrHi : ℚ := 220

/-- Lower temperature clamp bound. -/
def tempLo : ℚ := 33

/-- Upper temperature clamp bound. -/
def tempHi : ℚ := 43

/-- Clamp a value into [lo, hi]. -/
def clamp (lo hi x : ℚ) : ℚ := max lo (min x hi)

/-- Modelled from the spec: per-trend heart-rate bias of the random walk
(improving biases toward healthy, worsening away, critical with a larger
step). -/
def trendHrBias : Trend → ℚ
  | .normal => 0
  | .improving => -1
  | .worsening => 2
  | .critical => 4

/-- Modelled from the spec: per-trend SpO2 bias. -/
def trendSpo2Bias : Trend → ℚ
  | .normal => 0
  | .improving => 1
  | .worsening => -1
  | .critical => -2

/-- Modelled from the spec: per-trend temperature bias. -/
def trendTempBias : Trend → ℚ
  | .normal => 0
  | .improving => -1/10
  | .worsening => 1/5
  | .critical => 2/5

/-- Modelled from the spec: one generator step (backend simulator.py is not
under src/). Each vital evolves by the drawn perturbation plus the trend
bias, mean-reverting toward the baseline in normal mode; a spike adds a
larger transient deviation to heart rate and SpO2; every output is clamped
to its physiological range before being returned. -/
def stepVitals (baseline cur : Vitals) (trend : Trend) (r : RandSample) : Vitals :=
  let revertHr := if trend = .normal then (baseline.heart_rate - cur.heart_rate) / 10 else 0
  let revertTemp := if trend = .normal then (baseline.temperature - cur.temperature) / 10 else 0
  let revertSpo2 := if trend = .normal then (baseline.spo2 - cur.spo2) / 10 else 0
  let sHr := if r.spike then r.spikeHr else 0
  let sSpo2 := if r.spike then r.spikeSpo2 else 0
  { heart_rate := clamp hrLo hrHi (cur.heart_rate + r.dHr + trendHrBias trend + revertHr + sHr)
    temperature := clamp tempLo tempHi (cur.temperature + r.dTemp + trendTempBias trend + revertTemp)
    spo2 := clamp spo2Lo spo2Hi (cur.spo2 + r.dSpo2 + trendSpo2Bias trend + revertSpo2 + sSpo2) }

/-- Modelled from the spec: `advance` produces the next tracked state and the
emitted snapshot, labelling the snapshot with `classify` at creation time. -/
def advance (baseline cur : Vitals) (trend : Trend) (r : RandSample) (t : Nat) :
    Vitals × Snapshot :=
  let v := stepVitals baseline cur trend r
  (v, { timestamp := t, vitals := v, risk := classify v })

theorem le_clamp (lo hi x : ℚ) : lo ≤ clamp lo hi x := le_max_left _ _

theorem clamp_le (lo hi x : ℚ) (h : lo ≤ hi) : clamp lo hi x ≤ hi :=
  max_le h (min_le_right _ _)

/-- C2: every vital in the snapshot emitted by `advance` lies within its
clamped physiological bounds — in particular SpO2 ∈ [70,100] — for every
prior state, baseline, trend and random draw, because `advance` clamps all
outputs before returning. -/
theorem c2_advance_output_clamped (baseline cur : Vitals) (trend : Trend)
    (r : RandSample) (t : Nat) :
    (70 ≤ ((advance baseline cur trend r t).2).vitals.spo2 ∧
      ((advance baseline cur trend r t).2).vitals.spo2 ≤ 100) ∧
    (hrLo ≤ ((advance baseline cur trend r t).2).vitals.heart_rate ∧
      ((advance baseline cur trend r t).2).vitals.heart_rate ≤ hrHi) ∧
    (tempLo ≤ ((advance baseline cur trend r t).2).vitals.temperature ∧
      ((advance baseline cur trend r t).2).vitals.temperature ≤ tempHi) := by
  unfold advance stepVitals
  refine ⟨⟨?_, ?_⟩, ⟨?_, ?_⟩, ?_, ?_⟩
  · exact le_clamp _ _ _
  · exact clamp_le _ _ _ (by norm_num [spo2Lo, spo2Hi])
  · exact le_clamp _ _ _
  · exact clamp_le _ _ _ (by norm_num [hrLo, hrHi])
  · exact le_clamp _ _ _
  · exact clamp_le _ _ _ (by norm_num [tempLo, tempHi])

/-- Embedding of the bad/danger decision of `updateVital` in
frontend/script.js: `isBad` starts false, is set when the value exceeds a
non-null `highThresh`, is set when the value is below a non-null
`lowThresh`, and when `invert` is set the decision is overwritten by the
`value < lowThresh` comparison alone (with JavaScript coercing a null
threshold to 0 in that comparison). -/
def updateVitalIsBad (value : ℚ) (highThresh lowThresh : Option ℚ) (invert : Bool) : Bool :=
  let isBad := false
  let isBad := match highThresh with
    | some h => if h < value then true else isBad
    | none => isBad
  let isBad := match lowThresh with
    | some l => if value < l then true else isBad
    | none => isBad
  if invert then
    (match lowThresh with
      | some l => decide (value < l)
      | none => decide (value < 0))
  else isBad

/-- The heart-rate call of `updateDashboard`: thresholds 100 / 60, not
inverted. -/
def hrIsBad (v : ℚ) : Bool := updateVitalIsBad v (some 100) (some 60) false

/-- The temperature call of `updateDashboard`: thresholds 37.5 / 36.0, not
inverted. -/
def tempIsBad (v : ℚ) : Bool := updateVitalIsBad v (some 37.5) (some 36.0) false

/-- The SpO2 call of `updateDashboard`: thresholds 100 / 90, inverted. -/
def spo2IsBad (v : ℚ) : Bool := updateVitalIsBad v (some 100) (some 90) true

/-- C7: the frontend flags heart rate bad exactly when value > 100 or
value < 60, temperature bad exactly when value > 37.5 or value < 36.0, and
SpO2 bad exactly when value < 90 — the frontend threshold set, distinct
from the simulator's documented normal band. -/
theorem c7_frontend_thresholds (v : ℚ) :
    (hrIsBad v = true ↔ (100 < v ∨ v < 60)) ∧
    (tempIsBad v = true ↔ (37.5 < v ∨ v < 36.0)) ∧
    (spo2IsBad v = true ↔ v < 90) := by
  refine ⟨?_, ?_, ?_⟩
  · by_cases h1 : (100 : ℚ) < v <;> by_cases h2 : v < 60 <;>
      simp [hrIsBad, updateVitalIsBad, h1, h2]
  · by_cases h1 : (37.5 : ℚ) < v <;> by_cases h2 : v < 36.0 <;>
      simp [tempIsBad, updateVitalIsBad, h1, h2]
  · simp [spo2IsBad, updateVitalIsBad]

/-- C10: with `invert` set (the SpO2 call) the decision of `updateVital` is
exactly `value < lowThresh`; the earlier high-threshold comparison is
discarded, so every value at or above `lowThresh` — including values above
`highThresh` — is displayed as normal. -/
theorem c10_invert_discards_high (value h l : ℚ) :
    updateVitalIsBad value (some h) (some l) true = decide (value < l) ∧
    (l ≤ value → updateVitalIsBad value (some h) (some l) true = false) := by
  constructor
  · rfl
  · intro hle
    simp [updateVitalIsBad, not_lt.mpr hle]

/-- Witness for C10: the value 101 is above the high threshold 100 yet is
displayed as normal under the inverted SpO2 rule with low threshold 90. -/
theorem c10_invert_discards_high_witness :
    updateVitalIsBad 101 (some 100) (some 90) true = decide ((101 : ℚ) < 90) ∧
    updateVitalIsBad 101 (some 100) (some 90) true = false := by
  obtain ⟨h1, h2⟩ := c10_invert_discards_high 101 100 90
  exact ⟨h1, h2 (by norm_num)⟩

/-- Modelled from the spec: a patient record — immutable identity and
baseline profile, mutable current state, at most one active trend override
and the bounded history. -/
structure PatientRecord where
  name : String
  baseline : Vitals
  current : Vitals
  trend : Trend
  history : List Snapshot
  deriving DecidableEq

/-- Modelled from the spec: the in-memory registry mapping patient id to
its owned record. -/
abbrev Registry := List (String × PatientRecord)

/-- Modelled from the spec: bounded history capacity (50 entries). -/
def capacity : Nat := 50

/-- Modelled from the spec: `append` of the HistoryBuffer — new snapshot at
the newest end, evicting the oldest entries on overflow past capacity. -/
def appendSnap (buf : List Snapshot) (s : Snapshot) : List Snapshot :=
  if capacity < (buf ++ [s]).length then
    (buf ++ [s]).drop ((buf ++ [s]).length - capacity)
  else buf ++ [s]

/-- Modelled from the spec: `recent` of the HistoryBuffer — oldest..newest,
or reversed on request. -/
def recent (buf : List Snapshot) (rev : Bool) : List Snapshot :=
  if rev then buf.reverse else buf

/-- Modelled from the spec: error kinds surfaced to the caller. -/
inductive ApiError
  | NotFound
  | InvalidTrend
  deriving DecidableEq

/-- A forecast entry: projected minutes ahead, projected vitals, and the
risk label of the projected snapshot. -/
structure ForecastEntry where
  minutes_ahead : Nat
  vitals : Vitals
  risk : Nat
  deriving DecidableEq

/-- Modelled from the spec: the forecast loop — runs the generator forward
step by step on a cloned state, classifying each projected snapshot; the
k-th projected point lies k * stepMinutes ahead. -/
def forecastAux (baseline : Vitals) (trend : Trend) (rnd : Nat → RandSample)
    (step : Nat) : List Nat → Vitals → List ForecastEntry
  | [], _ => []
  | k :: ks, cur =>
    let v := stepVitals baseline cur trend (rnd k)
    { minutes_ahead := k * step, vitals := v, risk := classify v } ::
      forecastAux baseline trend rnd step ks v

/-- Modelled from the spec: the step indices 1, 2, ..., horizon / step of a
forecast. -/
def forecastSteps (horizon step : Nat) : List Nat :=
  (List.range (horizon / step)).map (fun k => k + 1)

/-- Modelled from the spec: the `forecast` accessor — unknown patient id
yields NotFound; otherwise the generator is run forward from a clone of the
tracked current state, leaving the registry untouched. -/
def forecastOp (reg : Registry) (id : String) (rnd : Nat → RandSample)
    (horizon step : Nat) : Except ApiError (List ForecastEntry) × Registry :=
  match List.lookup id reg with
  | none => (.error .NotFound, reg)
  | some p =>
    let cloned := p.current
    (.ok (forecastAux p.baseline p.trend rnd step (forecastSteps horizon step) cloned), reg)

/-- Modelled from the spec: the `recent` history accessor — unknown patient
id yields NotFound. -/
def recentOp (reg : Registry) (id : String) (rev : Bool) :
    Except ApiError (List Snapshot) :=
  match List.lookup id reg with
  | none => .error .NotFound
  | some p => .ok (recent p.history rev)

/-- Modelled from the spec: the patient-detail read — current vitals and
their risk label; unknown patient id yields NotFound. -/
def detailOp (reg : Registry) (id : String) : Except ApiError (Vitals × Nat) :=
  match List.lookup id reg with
  | none => .error .NotFound
  | some p => .ok (p.current, classify p.current)

/-- Modelled from the spec: validation of an operator trend-override request
against the enum of the four trend names. -/
def parseTrend : String → Option Trend
  | "normal" => some .normal
  | "improving" => some .improving
  | "worsening" => some .worsening
  | "critical" => some .critical
  | _ => none

/-- Replace the record stored under an id. -/
def updateReg (reg : Registry) (id : String) (p : PatientRecord) : Registry :=
  reg.map (fun kv => if kv.1 = id then (kv.1, p) else kv)

/-- Modelled from the spec: the trend-override request — validated against
the enum; an unrecognized value yields InvalidTrend with the state left
unchanged. -/
def setTrendOp (reg : Registry) (id : String) (t : String) :
    Except ApiError Unit × Registry :=
  match List.lookup id reg with
  | none => (.error .NotFound, reg)
  | some p =>
    match parseTrend t with
    | none => (.error .InvalidTrend, reg)
    | some tr => (.ok (), updateReg reg id { p with trend := tr })

/-- Modelled from the spec: one scheduler tick — every patient's state is
advanced through the generator and the emitted snapshot appended to that
patient's history. -/
def advanceTick (reg : Registry) (rnd : String → RandSample) (t : Nat) : Registry :=
  reg.map (fun kv =>
    let p := kv.2
    let res := advance p.baseline p.current p.trend (rnd kv.1) t
    (kv.1, { p with current := res.1, history := appendSnap p.history res.2 }))

theorem forecastAux_minutes (baseline : Vitals) (trend : Trend) (rnd : Nat → RandSample)
    (step : Nat) :
    ∀ (ks : List Nat) (cur : Vitals),
      (forecastAux baseline trend rnd step ks cur).map ForecastEntry.minutes_ahead =
        ks.map (fun k => k * step) := by
  intro ks
  induction ks with
  | nil => intro cur; rfl
  | cons k ks ih => intro cur; simp [forecastAux, ih]

theorem forecastOp_ok (reg : Registry) (id : String) (rnd : Nat → RandSample)
    (horizon step : Nat) (entries : List ForecastEntry)
    (h : (forecastOp reg id rnd horizon step).1 = .ok entries) :
    entries.map ForecastEntry.minutes_ahead =
      (List.range (horizon / step)).map (fun k => (k + 1) * step) := by
  cases hl : List.lookup id reg with
  | none => simp [forecastOp, hl] at h
  | some p =>
    simp only [forecastOp, hl, Except.ok.injEq] at h
    subst h
    rw [forecastAux_minutes]
    unfold forecastSteps
    rw [List.map_map]
    rfl

/-- C4: `forecast(id, horizon=10, step=2)` on a known patient returns exactly
5 entries with minutes_ahead [2,4,6,8,10] in that ascending order; in
general the entry sequence is finite, strictly ascending in minutes_ahead,
starts at the step size, and ends at or before the horizon. -/
theorem c4_forecast_schedule (reg : Registry) (id : String) (rnd : Nat → RandSample) :
    (∀ entries, (forecastOp reg id rnd 10 2).1 = .ok entries →
      entries.map ForecastEntry.minutes_ahead = [2, 4, 6, 8, 10] ∧ entries.length = 5) ∧
    (∀ horizon step entries, 0 < step →
      (forecastOp reg id rnd horizon step).1 = .ok entries →
      List.Chain' (fun a b => a < b) (entries.map ForecastEntry.minutes_ahead) ∧
      (step ≤ horizon → (entries.map ForecastEntry.minutes_ahead).head? = some step) ∧
      (∀ e ∈ entries, e.minutes_ahead ≤ horizon)) := by
  constructor
  · intro entries h
    have hm := forecastOp_ok reg id rnd 10 2 entries h
    constructor
    · rw [hm]; rfl
    · have hlen := congrArg List.length hm
      simpa using hlen
  · intro horizon step entries hstep h
    have hm := forecastOp_ok reg id rnd horizon step entries h
    refine ⟨?_, ?_, ?_⟩
    · rw [hm]
      refine List.Pairwise.chain' ?_
      refine (List.pairwise_lt_range _).map _ ?_
      intro a b hab
      exact mul_lt_mul_of_pos_right (by omega) hstep
    · intro hsh
      rw [hm]
      have h1 : 1 ≤ horizon / step := (Nat.one_le_div_iff hstep).mpr hsh
      obtain ⟨m, hmm⟩ : ∃ m, horizon / step = m + 1 := ⟨horizon / step - 1, by omega⟩
      rw [hmm, List.range_succ_eq_map]
      simp
    · intro e he
      have hin : e.minutes_ahead ∈ entries.map ForecastEntry.minutes_ahead :=
        List.mem_map_of_mem _ he
      rw [hm] at hin
      obtain ⟨k, hk, hke⟩ := List.mem_map.mp hin
      have hk1 : k + 1 ≤ horizon / step := List.mem_range.mp hk
      calc e.minutes_ahead = (k + 1) * step := hke.symm
        _ ≤ (horizon / step) * step := Nat.mul_le_mul_right step hk1
        _ ≤ horizon := Nat.div_mul_le_self horizon step

/-- A concrete baseline vitals triple used to instantiate the theorems. -/
def sampleVitals : Vitals := ⟨80, 37, 97⟩

/-- A concrete patient record at its baseline, trend normal, empty history. -/
def samplePatient : PatientRecord := ⟨"Asha", sampleVitals, sampleVitals, .normal, []⟩

/-- A one-patient registry. -/
def sampleReg : Registry := [("P1", samplePatient)]

/-- The all-zero random draw (no perturbation, no spike). -/
def zeroRand : RandSample := ⟨0, 0, 0, false, 0, 0⟩

/-- The forecast the sample registry produces for horizon 10, step 2 under
the all-zero random source. -/
def sampleForecast : List ForecastEntry :=
  [⟨2, sampleVitals, 0⟩, ⟨4, sampleVitals, 0⟩, ⟨6, sampleVitals, 0⟩,
    ⟨8, sampleVitals, 0⟩, ⟨10, sampleVitals, 0⟩]

theorem stepVitals_sample_fixed :
    stepVitals sampleVitals sampleVitals .normal zeroRand = sampleVitals := by
  unfold stepVitals sampleVitals zeroRand clamp
  norm_num [trendHrBias, trendTempBias, trendSpo2Bias, hrLo, hrHi, tempLo, tempHi,
    spo2Lo, spo2Hi, min_def, max_def]

theorem classify_sample : classify sampleVitals = 0 := by
  norm_num [classify, classifyRule, sampleVitals]

/-- Witness for C4 on the concrete one-patient registry. -/
theorem c4_forecast_schedule_witness :
    sampleForecast.map ForecastEntry.minutes_ahead = [2, 4, 6, 8, 10] ∧
    sampleForecast.length = 5 ∧
    List.Chain' (fun a b => a < b) (sampleForecast.map ForecastEntry.minutes_ahead) := by
  have hok : (forecastOp sampleReg "P1" (fun _ => zeroRand) 10 2).1 = .ok sampleForecast := by
    have hl : List.lookup "P1" sampleReg = some samplePatient := rfl
    have hsteps : forecastSteps 10 2 = [1, 2, 3, 4, 5] := rfl
    simp only [forecastOp, hl, hsteps, samplePatient]
    simp only [forecastAux, stepVitals_sample_fixed, classify_sample, sampleForecast]
  obtain ⟨ha, hb⟩ := c4_forecast_schedule sampleReg "P1" (fun _ => zeroRand)
  obtain ⟨h1, h2⟩ := ha sampleForecast hok
  obtain ⟨h3, _, _⟩ := hb 10 2 sampleForecast (by decide) hok
  exact ⟨h1, h2, h3⟩

/-- C5: forecasting is read-only with respect to the authoritative
simulation state: the registry after a forecast call equals the registry
before it, and a subsequent tick behaves exactly as if the forecast had not
been called. -/
theorem c5_forecast_readonly (reg : Registry) (id : String) (rnd : Nat → RandSample)
    (horizon step : Nat) (rnd2 : String → RandSample) (t : Nat) :
    (forecastOp reg id rnd horizon step).2 = reg ∧
    advanceTick (forecastOp reg id rnd horizon step).2 rnd2 t = advanceTick reg rnd2 t := by
  have h2 : (forecastOp reg id rnd horizon step).2 = reg := by
    unfold forecastOp
    cases List.lookup id reg <;> rfl
  exact ⟨h2, by rw [h2]⟩

theorem appendSnap_eq_drop (l : List Snapshot) (x : Snapshot) :
    appendSnap (l.drop (l.length - capacity)) x =
      (l ++ [x]).drop ((l ++ [x]).length - capacity) := by
  unfold appendSnap capacity
  split_ifs with h
  · have hn : 50 ≤ l.length := by
      simp only [List.length_append, List.length_drop, List.length_cons,
        List.length_nil] at h
      omega
    have hd : (l.drop (l.length - 50)).length = 50 := by
      rw [List.length_drop]; omega
    have h1 : (l.drop (l.length - 50) ++ [x]).length - 50 = 1 := by
      rw [List.length_append, hd]; rfl
    rw [h1]
    rw [List.drop_append_of_le_length (by omega : 1 ≤ (l.drop (l.length - 50)).length)]
    rw [List.drop_drop]
    rw [List.drop_append_of_le_length
      (by simp only [List.length_append, List.length_cons, List.length_nil]; omega)]
    have h2 : l.length - 50 + 1 = (l ++ [x]).length - 50 := by
      simp only [List.length_append, List.length_cons, List.length_nil]; omega
    rw [h2]
  · have hn : l.length < 50 := by
      simp only [List.length_append, List.length_drop, List.length_cons,
        List.length_nil] at h
      omega
    rw [show l.length - 50 = 0 from by omega, List.drop_zero]
    rw [show (l ++ [x]).length - 50 = 0 from by
      simp only [List.length_append, List.length_cons, List.length_nil]; omega]
    rw [List.drop_zero]

theorem foldl_appendSnap (l : List Snapshot) :
    List.foldl appendSnap [] l = l.drop (l.length - capacity) := by
  induction l using List.reverseRecOn with
  | nil => rfl
  | append_singleton l x ih =>
    rw [List.foldl_append, List.foldl_cons, List.foldl_nil, ih, appendSnap_eq_drop]

/-- C6: the HistoryBuffer is bounded: an append yields exactly
min (length + 1) capacity entries, so the buffer never exceeds its
capacity; after capacity + 1 appends the oldest original entry is evicted
and the remaining entries keep insertion order; `recent` returns
oldest..newest, or reversed on request. -/
theorem c6_history_bounded :
    (∀ (buf : List Snapshot) (s : Snapshot),
      (appendSnap buf s).length = min (buf.length + 1) capacity) ∧
    (∀ f : Nat → Snapshot,
      List.foldl appendSnap [] ((List.range (capacity + 1)).map f) =
        (List.range capacity).map (fun i => f (i + 1))) ∧
    (∀ buf : List Snapshot, recent buf false = buf ∧ recent buf true = buf.reverse) := by
  refine ⟨?_, ?_, ?_⟩
  · intro buf s
    unfold appendSnap capacity
    by_cases h : 50 < (buf ++ [s]).length
    · rw [if_pos h, List.length_drop]
      simp only [List.length_append, List.length_cons, List.length_nil] at h ⊢
      omega
    · rw [if_neg h]
      simp only [List.length_append, List.length_cons, List.length_nil] at h ⊢
      omega
  · intro f
    rw [foldl_appendSnap]
    have hlen : ((List.range (capacity + 1)).map f).length = capacity + 1 := by simp
    rw [hlen, Nat.add_sub_cancel_left, List.range_succ_eq_map]
    simp only [List.map_cons, List.drop_succ_cons, List.drop_zero, List.map_map]
    rfl
  · intro buf
    exact ⟨rfl, rfl⟩

/-- C8: every accessor — forecast, recent history, patient detail — given
an unknown patient id yields the NotFound error surfaced to the caller (a
total function result, not a crash), and the forecast accessor leaves the
registry unchanged. -/
theorem c8_unknown_patient (reg : Registry) (id : String) (rnd : Nat → RandSample)
    (horizon step : Nat) (rev : Bool) (h : List.lookup id reg = none) :
    (forecastOp reg id rnd horizon step).1 = .error .NotFound ∧
    (forecastOp reg id rnd horizon step).2 = reg ∧
    recentOp reg id rev = .error .NotFound ∧
    detailOp reg id = .error .NotFound := by
  refine ⟨?_, ?_, ?_, ?_⟩ <;> simp [forecastOp, recentOp, detailOp, h]

/-- Witness for C8: the id P9 is absent from the one-patient registry. -/
theorem c8_unknown_patient_witness :
    (forecastOp sampleReg "P9" (fun _ => zeroRand) 10 2).1 = .error .NotFound ∧
    (forecastOp sampleReg "P9" (fun _ => zeroRand) 10 2).2 = sampleReg ∧
    recentOp sampleReg "P9" false = .error .NotFound ∧
    detailOp sampleReg "P9" = .error .NotFound :=
  c8_unknown_patient sampleReg "P9" (fun _ => zeroRand) 10 2 false (by rfl)

/-- C9: a trend-override request whose value is outside the enum
{normal, improving, worsening, critical} yields the InvalidTrend error and
returns the registry — including the patient's stored trend override —
completely unchanged. -/
theorem c9_invalid_trend_rejected (reg : Registry) (id : String) (p : PatientRecord)
    (t : String) (hid : List.lookup id reg = some p) (ht : parseTrend t = none) :
    setTrendOp reg id t = (.error .InvalidTrend, reg) := by
  simp [setTrendOp, hid, ht]

/-- Witness for C9: the value bogus is rejected and the sample registry is
returned unchanged. -/
theorem c9_invalid_trend_rejected_witness :
    setTrendOp sampleReg "P1" "bogus" = (.error .InvalidTrend, sampleReg) :=
  c9_invalid_trend_rejected sampleReg "P1" samplePatient "bogus" (by rfl) (by rfl)

end CareLink
